import Mathlib

/-!
# A verification model of the practice-vulkan render/present core

This file embeds the per-frame render/present cycle and its companion
resource protocols from the practice-vulkan samples into Lean:

* the memory-type lookup `vkGetMemoryTypeIndex` from
  `move-triangle/app/src/main/cpp/VkUtil.h` (lines 183-200);
* the surface-format and present-mode negotiation loops from the
  `VkRenderer` constructor of `hello-graceful-shutdown` (lines 266-306);
* the frame loop `VkRenderer::render` of `hello-graceful-shutdown`
  (lines 1285-1449), modelled as a straight-line trace of driver calls
  over an explicit renderer state;
* the single-slot render cycle of `vulkan-sampler` (lines 997-1125);
* the CPU/GPU fence protocol of a frame slot, as an interleaving
  state machine, to settle the fence-discipline property;
* the destructor teardown sequence of `hello-graceful-shutdown`
  (lines 1228-1283);
* the table of Vulkan call sites together with their fallibility and
  whether each is wrapped in `VK_CHECK_ERROR`.

C++ `float` quantities (the mapped uniform block) are modelled as exact
rationals; for the ten-update scenario checked here every comparison is
far from the float rounding error, so the rational model and the float
code agree on every branch taken.
-/

namespace PracticeVulkan

/-! ## A generic first-match index scan

Both `vkGetMemoryTypeIndex` and the two negotiation loops in the
constructor are `for` loops that walk an array from index `0` and return
the first index whose element passes a test.  `findFirstIdx p l i` scans
list `l` whose head sits at index `i`, returning the absolute index of
the first element accepted by `p`.
-/

def findFirstIdx {α : Type} (p : Nat → α → Bool) : List α → Nat → Option Nat
  | [], _ => none
  | a :: rest, i => if p i a then some i else findFirstIdx p rest (i + 1)

theorem findFirstIdx_eq_none_iff {α : Type} (p : Nat → α → Bool) (d : α) :
    ∀ (l : List α) (i : Nat),
      findFirstIdx p l i = none ↔ ∀ k, k < l.length → p (i + k) (l.getD k d) = false
  | [], i => by simp [findFirstIdx]
  | a :: rest, i => by
    rw [findFirstIdx]
    by_cases h : p i a
    · simp only [if_pos h]
      constructor
      · intro hc; cases hc
      · intro hall
        have h0 := hall 0 (by simp)
        rw [Nat.add_zero, List.getD_cons_zero] at h0
        rw [h] at h0
        cases h0
    · simp only [if_neg h]
      rw [findFirstIdx_eq_none_iff p d rest (i + 1)]
      constructor
      · intro hrest k hk
        match k with
        | 0 =>
          rw [Nat.add_zero, List.getD_cons_zero]
          exact Bool.eq_false_iff.mpr h
        | k' + 1 =>
          have hrec := hrest k' (by simp only [List.length_cons] at hk; omega)
          rw [List.getD_cons_succ]
          have harith : i + (k' + 1) = i + 1 + k' := by omega
          rw [harith]
          exact hrec
      · intro hall k hk
        have hsh := hall (k + 1) (by simp only [List.length_cons]; omega)
        rw [List.getD_cons_succ] at hsh
        have harith : i + (k + 1) = i + 1 + k := by omega
        rw [harith] at hsh
        exact hsh

theorem findFirstIdx_eq_some_iff {α : Type} (p : Nat → α → Bool) (d : α) :
    ∀ (l : List α) (i j : Nat),
      findFirstIdx p l i = some j ↔
        ∃ k, k < l.length ∧ j = i + k ∧ p (i + k) (l.getD k d) = true ∧
          ∀ m, m < k → p (i + m) (l.getD m d) = false
  | [], i, j => by simp [findFirstIdx]
  | a :: rest, i, j => by
    rw [findFirstIdx]
    by_cases h : p i a
    · simp only [if_pos h, Option.some_inj]
      constructor
      · intro hj
        refine ⟨0, by simp, by omega, ?_, by omega⟩
        rw [Nat.add_zero, List.getD_cons_zero]
        exact h
      · rintro ⟨k, -, hj, -, hmin⟩
        match k with
        | 0 => omega
        | k' + 1 =>
          have h0 := hmin 0 (by omega)
          rw [Nat.add_zero, List.getD_cons_zero] at h0
          rw [h] at h0
          cases h0
    · simp only [if_neg h]
      rw [findFirstIdx_eq_some_iff p d rest (i + 1) j]
      constructor
      · rintro ⟨k, hk, hj, hp, hmin⟩
        refine ⟨k + 1, by simp only [List.length_cons]; omega, by omega, ?_, ?_⟩
        · rw [List.getD_cons_succ]
          have harith : i + (k + 1) = i + 1 + k := by omega
          rw [harith]
          exact hp
        · intro m hm
          match m with
          | 0 =>
            rw [Nat.add_zero, List.getD_cons_zero]
            exact Bool.eq_false_iff.mpr h
          | m' + 1 =>
            have hrec := hmin m' (by omega)
            rw [List.getD_cons_succ]
            have harith : i + (m' + 1) = i + 1 + m' := by omega
            rw [harith]
            exact hrec
      · rintro ⟨k, hk, hj, hp, hmin⟩
        match k with
        | 0 =>
          exfalso
          rw [Nat.add_zero, List.getD_cons_zero] at hp
          rw [hp] at h
          exact h rfl
        | k' + 1 =>
          refine ⟨k', by simp only [List.length_cons] at hk; omega, by omega, ?_, ?_⟩
          · rw [List.getD_cons_succ] at hp
            have harith : i + (k' + 1) = i + 1 + k' := by omega
            rw [harith] at hp
            exact hp
          · intro m hm
            have hrec := hmin (m + 1) (by omega)
            rw [List.getD_cons_succ] at hrec
            have harith : i + (m + 1) = i + 1 + m := by omega
            rw [harith] at hrec
            exact hrec

/-! ## Memory-type lookup (`VkUtil.h`, `vkGetMemoryTypeIndex`, lines 183-200)

The source scans `physicalDeviceMemoryProperties.memoryTypes` with
index `i` from `0` to `memoryTypeCount - 1` and returns the first `i`
with `memoryRequirements.memoryTypeBits & (1 << i)` non-zero whose
`propertyFlags` contain all of the desired `memoryPropertyFlags`;
it reports `VK_ERROR_UNKNOWN` (here `none`) when the scan falls through.
-/

structure VkMemoryType where
  propertyFlags : Nat
deriving DecidableEq

structure VkMemoryRequirements where
  size : Nat
  alignment : Nat
  memoryTypeBits : Nat
deriving DecidableEq

def vkGetMemoryTypeIndex (memoryTypes : List VkMemoryType)
    (memoryRequirements : VkMemoryRequirements)
    (memoryPropertyFlags : Nat) : Option Nat :=
  findFirstIdx
    (fun i t =>
      (memoryRequirements.memoryTypeBits &&& (1 <<< i) != 0) &&
        ((t.propertyFlags &&& memoryPropertyFlags) == memoryPropertyFlags))
    memoryTypes 0

/-- The condition the scan in `vkGetMemoryTypeIndex` tests at index `i`:
bit `i` is set in the requirements' type bitmask and the type's property
flags are a superset of the desired flags. -/
def memoryTypeCompatible (memoryTypes : List VkMemoryType)
    (memoryRequirements : VkMemoryRequirements)
    (memoryPropertyFlags : Nat) (i : Nat) : Prop :=
  memoryRequirements.memoryTypeBits &&& (1 <<< i) ≠ 0 ∧
    (memoryTypes.getD i ⟨0⟩).propertyFlags &&& memoryPropertyFlags = memoryPropertyFlags

instance (memoryTypes : List VkMemoryType) (memoryRequirements : VkMemoryRequirements)
    (memoryPropertyFlags i : Nat) :
    Decidable (memoryTypeCompatible memoryTypes memoryRequirements memoryPropertyFlags i) := by
  unfold memoryTypeCompatible
  infer_instance

/-! ## Surface-format and present-mode negotiation
(`hello-graceful-shutdown` constructor, lines 266-306;
 the `vulkan-sampler` constructor, lines 248-288, is identical)

The constructor scans the enumerated `surfaceFormats` for the first entry
whose `format` equals `VK_FORMAT_R8G8B8A8_UNORM` — the non-sRGB 8-bit
RGBA swapchain format — and the enumerated `presentModes` for the first
entry equal to `VK_PRESENT_MODE_FIFO_KHR`.  When a scan falls through,
the sentinel (`VK_FORMAT_MAX_ENUM` resp. `VK_PRESENT_MODE_MAX_ENUM_KHR`)
survives and the following `assert` aborts; `none` models that case.
-/

/-- `VkFormat` value of `VK_FORMAT_R8G8B8A8_UNORM` from `vulkan_core.h`. -/
def VK_FORMAT_R8G8B8A8_UNORM : Nat := 37

/-- `VkPresentModeKHR` value of `VK_PRESENT_MODE_FIFO_KHR` from `vulkan_core.h`. -/
def VK_PRESENT_MODE_FIFO_KHR : Nat := 2

structure VkSurfaceFormatKHR where
  format : Nat
  colorSpace : Nat
deriving DecidableEq

/-- The format-selection loop of the constructor (lines 278-285): first
index whose `format` is `VK_FORMAT_R8G8B8A8_UNORM`. -/
def chooseSurfaceFormatIndex (surfaceFormats : List VkSurfaceFormatKHR) : Option Nat :=
  findFirstIdx (fun _ f => f.format == VK_FORMAT_R8G8B8A8_UNORM) surfaceFormats 0

/-- The present-mode-selection loop of the constructor (lines 299-305):
first index equal to `VK_PRESENT_MODE_FIFO_KHR`. -/
def choosePresentModeIndex (presentModes : List Nat) : Option Nat :=
  findFirstIdx (fun _ m => m == VK_PRESENT_MODE_FIFO_KHR) presentModes 0

/-! ## The mapped per-frame uniform block

`struct Uniform { float position[8]; float ratio; }` (line 75-78).
The update in `render` (lines 1302-1309) runs `for (i = 0; i < 8; i += 4)`,
touching exactly `position[0]` and `position[4]`: each is incremented by
`0.01` and snapped back to `-1.5` once it exceeds `1.5`; then the field
`ratio` is overwritten with `extent.height / extent.width`.
Floats are modelled as exact rationals; `ratioVal` models the `ratio` field.
-/

structure Uniform where
  position : Fin 8 → ℚ
  ratioVal : ℚ

/-- One step of the position-update rule applied to a single element:
`x += 0.01; if (x > 1.5) x = -1.5;`. -/
def uniformPositionStep (x : ℚ) : ℚ :=
  let y := x + 1 / 100
  if y > 3 / 2 then -(3 / 2) else y

structure VkExtent2D where
  width : Nat
  height : Nat
deriving DecidableEq

/-- The uniform update performed by `render` steps 2 (lines 1299-1309):
the loop `for (i = 0; i < 8; i += 4)` touches indices 0 and 4 only, then
the ratio field is set from the swapchain extent. -/
def updateUniform (u : Uniform) (extent : VkExtent2D) : Uniform where
  position := fun j =>
    if j = 0 ∨ j = 4 then uniformPositionStep (u.position j) else u.position j
  ratioVal := (extent.height : ℚ) / (extent.width : ℚ)

/-- The uniform block as `memset(uniformData, 0, sizeof(Uniform))`
leaves it at setup (constructor line 935). -/
def zeroUniform : Uniform where
  position := fun _ => 0
  ratioVal := 0

/-- The stored value of one tracked position element after `n` render
calls, starting from stored value `x`. -/
def uniformPosIter (x : ℚ) : Nat → ℚ
  | 0 => x
  | n + 1 => uniformPositionStep (uniformPosIter x n)

/-! ## The frame loop (`hello-graceful-shutdown`, `VkRenderer::render`, lines 1285-1449)

`render` is straight-line code; it is embedded as a pure function from
the renderer state (the instance fields the frame loop reads and writes)
and the image index handed back by `vkAcquireNextImageKHR` (the
presentation engine's choice, an input here) to the next state plus the
trace of driver calls issued, in source order.  Each event records the
frame-slot index (`mFrameIndex` at entry) or image index it was issued
with.
-/

inductive FenceKind where
  | submit    -- an element of mFencesForSubmit (created signaled, line 397)
  | acquire   -- an element of mFencesForAcquire (created unsignaled, line 408)
deriving DecidableEq

inductive RenderEv where
  /-- `vkWaitForFences` on the slot's fence of the given kind. -/
  | waitFence (kind : FenceKind) (slot : Nat)
  /-- `vkResetFences` on the slot's fence of the given kind. -/
  | resetFence (kind : FenceKind) (slot : Nat)
  /-- the CPU write into the slot's mapped uniform block (lines 1302-1309). -/
  | updateUniformData (slot : Nat)
  /-- `vkAcquireNextImageKHR` signaling the slot's acquire fence,
  returning `imageIndex` (lines 1315-1320). -/
  | acquireNextImage (slot imageIndex : Nat)
  /-- `vkResetCommandBuffer` on the slot's command buffer (line 1332). -/
  | resetCommandBuffer (slot : Nat)
  /-- `vkBeginCommandBuffer` with the one-time-submit flag (line 1342). -/
  | beginCommandBuffer (slot : Nat)
  /-- `vkCmdBeginRenderPass` against `mFramebuffers[framebufferIndex]`
  (lines 1347-1358). -/
  | beginRenderPass (slot framebufferIndex : Nat)
  /-- `vkCmdSetViewport` to the swapchain extent (line 1369). -/
  | setViewport (slot : Nat)
  /-- `vkCmdSetScissor` to the swapchain extent (line 1378). -/
  | setScissor (slot : Nat)
  /-- `vkCmdBindPipeline` (line 1383). -/
  | bindPipeline (slot : Nat)
  /-- `vkCmdBindVertexBuffers` (line 1389). -/
  | bindVertexBuffer (slot : Nat)
  /-- `vkCmdBindDescriptorSets` with the slot's descriptor set (line 1394). -/
  | bindDescriptorSet (slot : Nat)
  /-- `vkCmdDraw(commandBuffer, 3, 1, 0, 0)` (line 1406). -/
  | draw (slot : Nat)
  /-- `vkCmdEndRenderPass` (line 1411). -/
  | endRenderPass (slot : Nat)
  /-- `vkEndCommandBuffer` (line 1416). -/
  | endCommandBuffer (slot : Nat)
  /-- `vkQueueSubmit` signaling the slot's semaphore and submit fence
  (line 1429). -/
  | queueSubmit (slot : Nat)
  /-- `vkQueuePresentKHR` of `imageIndex` waiting on the slot's semaphore
  (line 1443). -/
  | queuePresent (imageIndex waitSemaphoreSlot : Nat)
  /-- `vkQueueWaitIdle` (only in the `vulkan-sampler` loop, line 1124). -/
  | queueWaitIdle
deriving DecidableEq

/-- The instance fields of `VkRenderer` the frame loop touches. -/
structure RendererState where
  /-- `mSwapchainImages.size()`, fixed at swapchain creation. -/
  swapchainImageCount : Nat
  /-- `mSwapchainImageExtent`. -/
  swapchainImageExtent : VkExtent2D
  /-- `mFrameIndex`. -/
  frameIndex : Nat
  /-- the mapped `mUniformData` blocks, one per slot. -/
  uniformData : List Uniform

/-- One call of `VkRenderer::render` (lines 1285-1449), transcribed
statement by statement; `imageIndex` is the index produced by
`vkAcquireNextImageKHR`.  Returns the updated state and the trace of
driver calls in source order. -/
def render (s : RendererState) (imageIndex : Nat) : RendererState × List RenderEv :=
  -- lines 1286-1291: all per-slot handles are selected by mFrameIndex
  let slot := s.frameIndex
  let trace : List RenderEv :=
    [ .waitFence .submit slot,            -- line 1296
      .resetFence .submit slot,           -- line 1297
      .updateUniformData slot,            -- lines 1302-1309
      .acquireNextImage slot imageIndex,  -- lines 1315-1320
      .waitFence .acquire slot,           -- line 1326
      .resetFence .acquire slot,          -- line 1327
      .resetCommandBuffer slot,           -- line 1332
      .beginCommandBuffer slot,           -- line 1342
      .beginRenderPass slot imageIndex,   -- line 1358, framebuffer from line 1321
      .setViewport slot,                  -- line 1369
      .setScissor slot,                   -- line 1378
      .bindPipeline slot,                 -- line 1383
      .bindVertexBuffer slot,             -- line 1389
      .bindDescriptorSet slot,            -- line 1394
      .draw slot,                         -- line 1406
      .endRenderPass slot,                -- line 1411
      .endCommandBuffer slot,             -- line 1416
      .queueSubmit slot,                  -- line 1429
      .queuePresent imageIndex slot ]     -- line 1443
  ({ s with
      uniformData :=
        s.uniformData.set slot
          (updateUniform (s.uniformData.getD slot zeroUniform) s.swapchainImageExtent),
      -- line 1448: mFrameIndex = ++mFrameIndex % mSwapchainImages.size()
      frameIndex := (s.frameIndex + 1) % s.swapchainImageCount },
   trace)

/-- The renderer state as the constructor leaves it: `mFrameIndex{0}`
(line 81) and every mapped uniform block zeroed by `memset` (line 935). -/
def initState (swapchainImageCount : Nat) (extent : VkExtent2D) : RendererState where
  swapchainImageCount := swapchainImageCount
  swapchainImageExtent := extent
  frameIndex := 0
  uniformData := List.replicate swapchainImageCount zeroUniform

/-- Iterated render calls, fed one acquired image index per call. -/
def renderSeq (s : RendererState) : List Nat → RendererState
  | [] => s
  | img :: imgs => renderSeq (render s img).1 imgs

/-- The frame-slot index used by each successive render call. -/
def slotsOf (s : RendererState) : List Nat → List Nat
  | [] => []
  | img :: imgs => s.frameIndex :: slotsOf (render s img).1 imgs

/-- The call sequence the specification prescribes for one render call
on frame slot `slot` acquiring image `imageIndex`: wait and reset the
submit fence, update the uniform block, acquire signaling the acquire
fence, wait and reset it, reset and re-record the command buffer,
submit, present.  Written from the spec's step list to be compared
against the trace the code produces. -/
def specRenderCallSequence (slot imageIndex : Nat) : List RenderEv :=
  [ .waitFence .submit slot, .resetFence .submit slot,
    .updateUniformData slot,
    .acquireNextImage slot imageIndex,
    .waitFence .acquire slot, .resetFence .acquire slot,
    .resetCommandBuffer slot, .beginCommandBuffer slot,
    .beginRenderPass slot imageIndex,
    .setViewport slot, .setScissor slot,
    .bindPipeline slot, .bindVertexBuffer slot, .bindDescriptorSet slot,
    .draw slot, .endRenderPass slot, .endCommandBuffer slot,
    .queueSubmit slot,
    .queuePresent imageIndex slot ]

/-! ## The single-slot loop of `vulkan-sampler` (`VkRenderer::render`, lines 997-1125)

That sample has one command buffer, one fence and one semaphore (slot 0
throughout); its trace is recorded with the same event alphabet. -/

/-- One call of the `vulkan-sampler` `render` (lines 997-1125):
uniform update, acquire signaling the single fence, wait and reset it,
reset and re-record the command buffer (no dynamic viewport/scissor in
this sample), submit (no fence), present, then `vkQueueWaitIdle`. -/
def samplerRender (u : Uniform) (extent : VkExtent2D) (imageIndex : Nat) :
    Uniform × List RenderEv :=
  (updateUniform u extent,
   [ .updateUniformData 0,            -- lines 1001-1009
     .acquireNextImage 0 imageIndex,  -- lines 1015-1020
     .waitFence .acquire 0,           -- line 1026
     .resetFence .acquire 0,          -- line 1027
     .resetCommandBuffer 0,           -- line 1032
     .beginCommandBuffer 0,           -- line 1042
     .beginRenderPass 0 imageIndex,   -- line 1058, framebuffer from line 1021
     .bindPipeline 0,                 -- line 1063
     .bindVertexBuffer 0,             -- line 1069
     .bindDescriptorSet 0,            -- line 1074
     .draw 0,                         -- line 1086
     .endRenderPass 0,                -- line 1091
     .endCommandBuffer 0,             -- line 1096
     .queueSubmit 0,                  -- line 1109
     .queuePresent imageIndex 0,      -- line 1123
     .queueWaitIdle ])                -- line 1124

/-- The framebuffer index carried by the (unique) `beginRenderPass`
event of a trace. -/
def framebufferBoundIn (trace : List RenderEv) : Option Nat :=
  trace.findSome? fun e =>
    match e with
    | .beginRenderPass _ fb => some fb
    | _ => none

/-! ## The per-slot CPU/GPU fence protocol

The submit-complete fence of frame slot `i` is touched by exactly four
CPU steps of each render call — `vkWaitForFences` (blocks until the
fence is signaled), `vkResetFences`, the first touch of the command
buffer (`vkResetCommandBuffer`, after which re-recording begins), and
`vkQueueSubmit` (after which the GPU signals the fence when the work
completes) — plus the GPU completion itself.  `slotStep` is the joint
CPU/GPU transition relation of one slot: the CPU events must occur in
the cyclic program order of `render`, a wait can only fire while the
fence is signaled (that is what returning from `vkWaitForFences` means),
and a GPU completion can only fire while a submission is outstanding.
An execution is any interleaving accepted by `slotRun`.
-/

inductive SlotEv where
  | waitSubmitFence
  | resetSubmitFence
  /-- the CPU begins resetting/re-recording the slot's command buffer. -/
  | record
  | submit
  /-- the GPU finishes a submission of this slot and signals the fence. -/
  | gpuComplete
deriving DecidableEq

structure SlotState where
  /-- CPU position in the slot's render cycle: 0 before the fence wait,
  1 after the wait, 2 after the fence reset, 3 after recording began. -/
  phase : Nat
  /-- the submit-complete fence (created signaled, line 397). -/
  signaled : Bool
  /-- submissions handed to the queue and not yet completed by the GPU. -/
  inFlight : Nat
deriving DecidableEq

def initSlotState : SlotState where
  phase := 0
  signaled := true
  inFlight := 0

def slotStep (s : SlotState) : SlotEv → Option SlotState
  | .waitSubmitFence =>
    if s.phase = 0 ∧ s.signaled = true then some { s with phase := 1 } else none
  | .resetSubmitFence =>
    if s.phase = 1 then some { s with phase := 2, signaled := false } else none
  | .record =>
    if s.phase = 2 then some { s with phase := 3 } else none
  | .submit =>
    if s.phase = 3 then some { s with phase := 0, inFlight := s.inFlight + 1 } else none
  | .gpuComplete =>
    if 0 < s.inFlight then
      some { s with inFlight := s.inFlight - 1, signaled := true }
    else none

def slotRun (s : SlotState) : List SlotEv → Option SlotState
  | [] => some s
  | e :: rest =>
    match slotStep s e with
    | none => none
    | some s2 => slotRun s2 rest

/-- The per-slot state invariant: the fence is signaled only while no
newer submission is outstanding, nothing is in flight between the wait
and the next submit, and at most one submission is ever in flight. -/
def slotInv (s : SlotState) : Prop :=
  (s.phase = 0 ∧ s.inFlight + (if s.signaled then 1 else 0) = 1) ∨
    (s.phase = 1 ∧ s.signaled = true ∧ s.inFlight = 0) ∨
    (s.phase = 2 ∧ s.signaled = false ∧ s.inFlight = 0) ∨
    (s.phase = 3 ∧ s.signaled = false ∧ s.inFlight = 0)

/-- The view of a render-call trace as the submit-fence protocol events
of frame slot `slot`. -/
def submitFenceEvent (slot : Nat) : RenderEv → Option SlotEv
  | .waitFence .submit i => if i = slot then some .waitSubmitFence else none
  | .resetFence .submit i => if i = slot then some .resetSubmitFence else none
  | .resetCommandBuffer i => if i = slot then some .record else none
  | .queueSubmit i => if i = slot then some .submit else none
  | _ => none

/-! ## The teardown sequence (`VkRenderer::~VkRenderer`, lines 1228-1283)

The destructor is straight-line code over the `N` per-image resources;
its trace is a function of `N`.
-/

inductive TeardownEv where
  /-- `vkDeviceWaitIdle` — blocks until all submitted GPU work finished
  (line 1229). -/
  | deviceWaitIdle
  | freeDescriptorSets
  | destroyDescriptorPool
  | destroySampler
  | destroyTextureImageView
  | freeTextureMemory
  | destroyTextureImage
  | destroyTexture
  | unmapUniformMemory (slot : Nat)
  | freeUniformMemory (slot : Nat)
  | destroyUniformBuffer (slot : Nat)
  | freeVertexMemory
  | destroyVertexBuffer
  | destroyDescriptorSetLayout
  | destroyPipelineLayout
  | destroyPipeline
  | destroyVertexShaderModule
  | destroyFragmentShaderModule
  | destroyFramebuffer (i : Nat)
  | destroyRenderPass
  | destroySwapchainImageView (i : Nat)
  | destroySemaphore (i : Nat)
  | destroyAcquireFence (i : Nat)
  | destroySubmitFence (i : Nat)
  | freeCommandBuffers
  | destroyCommandPool
  | destroySwapchain
  | destroySurface
  | destroyDevice
  | destroyInstance
deriving DecidableEq

/-- The destructor body (lines 1229-1282) in source order, for a
swapchain of `n` images. -/
def destructorTrace (n : Nat) : List TeardownEv :=
  [ .deviceWaitIdle,               -- line 1229
    .freeDescriptorSets,           -- line 1230
    .destroyDescriptorPool,        -- line 1231
    .destroySampler,               -- line 1232
    .destroyTextureImageView,      -- line 1233
    .freeTextureMemory,            -- line 1234
    .destroyTextureImage,          -- line 1235
    .destroyTexture ]              -- line 1236
  ++ (List.range n).map .unmapUniformMemory     -- lines 1238-1240
  ++ (List.range n).map .freeUniformMemory      -- lines 1241-1243
  ++ (List.range n).map .destroyUniformBuffer   -- lines 1245-1247
  ++ [ .freeVertexMemory,          -- line 1249
       .destroyVertexBuffer,       -- line 1250
       .destroyDescriptorSetLayout,  -- line 1251
       .destroyPipelineLayout,     -- line 1252
       .destroyPipeline,           -- line 1253
       .destroyVertexShaderModule, -- line 1254
       .destroyFragmentShaderModule ]  -- line 1255
  ++ (List.range n).map .destroyFramebuffer       -- lines 1256-1258
  ++ [ .destroyRenderPass ]        -- line 1260
  ++ (List.range n).map .destroySwapchainImageView  -- lines 1261-1263
  ++ (List.range n).map .destroySemaphore           -- lines 1265-1267
  ++ (List.range n).map .destroyAcquireFence        -- lines 1269-1271
  ++ (List.range n).map .destroySubmitFence         -- lines 1273-1275
  ++ [ .freeCommandBuffers,        -- line 1277
       .destroyCommandPool,        -- line 1278
       .destroySwapchain,          -- line 1279
       .destroySurface,            -- line 1280
       .destroyDevice,             -- line 1281
       .destroyInstance ]          -- line 1282

/-- Every teardown event other than the initial `vkDeviceWaitIdle`
destroys, frees or unmaps a resource. -/
def releasesResource : TeardownEv → Bool
  | .deviceWaitIdle => false
  | _ => true

/-! ## The Vulkan call sites and `VK_CHECK_ERROR`

`VK_CHECK_ERROR` (`VkUtil.h`, lines 120-126, the `#ifndef NDEBUG`
variant): evaluates its argument, and on any result other than
`VK_SUCCESS` logs the expression with the result name and calls
`abort()`; modelled as `none` = the process aborts.  `VkFn` enumerates
the functions called by the `hello-graceful-shutdown` constructor and
`render`; `returnsResult` records which of them return a `VkResult`
(per `vulkan_core.h`; `vkCompileShader` and `vkGetMemoryTypeIndex` per
`VkUtil.h`; `vkCreateTexture`/`vkGetTextureProperties` per their use
pattern in the VkTexture utility).
-/

def vkCheckError (vkResult : Int) : Option Unit :=
  if vkResult = 0 then some () else none

inductive VkFn where
  | vkEnumerateInstanceLayerProperties
  | vkEnumerateInstanceExtensionProperties
  | vkCreateInstance
  | vkEnumeratePhysicalDevices
  | vkGetPhysicalDeviceProperties
  | vkGetPhysicalDeviceMemoryProperties
  | vkGetPhysicalDeviceQueueFamilyProperties
  | vkEnumerateDeviceExtensionProperties
  | vkCreateDevice
  | vkGetDeviceQueue
  | vkCreateAndroidSurfaceKHR
  | vkGetPhysicalDeviceSurfaceSupportKHR
  | vkGetPhysicalDeviceSurfaceCapabilitiesKHR
  | vkGetPhysicalDeviceSurfaceFormatsKHR
  | vkGetPhysicalDeviceSurfacePresentModesKHR
  | vkCreateSwapchainKHR
  | vkGetSwapchainImagesKHR
  | vkCreateImageView
  | vkCreateCommandPool
  | vkAllocateCommandBuffers
  | vkCreateFence
  | vkCreateSemaphore
  | vkCreateRenderPass
  | vkCreateFramebuffer
  | vkCompileShader
  | vkCreateShaderModule
  | vkCreateDescriptorSetLayout
  | vkCreatePipelineLayout
  | vkCreateGraphicsPipelines
  | vkCreateBuffer
  | vkGetBufferMemoryRequirements
  | vkGetMemoryTypeIndex
  | vkAllocateMemory
  | vkBindBufferMemory
  | vkMapMemory
  | vkUnmapMemory
  | vkBeginCommandBuffer
  | vkCmdCopyBuffer
  | vkCreateTexture
  | vkGetTextureProperties
  | vkCreateImage
  | vkGetImageMemoryRequirements
  | vkBindImageMemory
  | vkGetImageSubresourceLayout
  | vkCmdPipelineBarrier
  | vkFreeMemory
  | vkDestroyBuffer
  | vkEndCommandBuffer
  | vkQueueSubmit
  | vkQueueWaitIdle
  | vkCreateSampler
  | vkCreateDescriptorPool
  | vkAllocateDescriptorSets
  | vkUpdateDescriptorSets
  | vkWaitForFences
  | vkResetFences
  | vkAcquireNextImageKHR
  | vkResetCommandBuffer
  | vkCmdBeginRenderPass
  | vkCmdSetViewport
  | vkCmdSetScissor
  | vkCmdBindPipeline
  | vkCmdBindVertexBuffers
  | vkCmdBindDescriptorSets
  | vkCmdDraw
  | vkCmdEndRenderPass
  | vkQueuePresentKHR
deriving DecidableEq

/-- Whether the function returns a `VkResult` (can report failure). -/
def VkFn.returnsResult : VkFn → Bool
  | .vkGetPhysicalDeviceProperties => false
  | .vkGetPhysicalDeviceMemoryProperties => false
  | .vkGetPhysicalDeviceQueueFamilyProperties => false
  | .vkGetDeviceQueue => false
  | .vkGetBufferMemoryRequirements => false
  | .vkUnmapMemory => false
  | .vkCmdCopyBuffer => false
  | .vkGetTextureProperties => false
  | .vkGetImageMemoryRequirements => false
  | .vkGetImageSubresourceLayout => false
  | .vkCmdPipelineBarrier => false
  | .vkFreeMemory => false
  | .vkDestroyBuffer => false
  | .vkUpdateDescriptorSets => false
  | .vkCmdBeginRenderPass => false
  | .vkCmdSetViewport => false
  | .vkCmdSetScissor => false
  | .vkCmdBindPipeline => false
  | .vkCmdBindVertexBuffers => false
  | .vkCmdBindDescriptorSets => false
  | .vkCmdDraw => false
  | .vkCmdEndRenderPass => false
  | _ => true

/-- One call site: which function, the source line in
`hello-graceful-shutdown/app/src/main/cpp/VkRenderer.cpp`, and whether
the call is wrapped in `VK_CHECK_ERROR`. -/
structure VkCallSite where
  fn : VkFn
  line : Nat
  checked : Bool
deriving DecidableEq

set_option maxHeartbeats 1600000 in
/-- Every Vulkan call site of the constructor (setup), in source order. -/
def constructorVkCallSites : List VkCallSite :=
  [ ⟨.vkEnumerateInstanceLayerProperties, 93, true⟩,
    ⟨.vkEnumerateInstanceLayerProperties, 96, true⟩,
    ⟨.vkEnumerateInstanceExtensionProperties, 105, true⟩,
    ⟨.vkEnumerateInstanceExtensionProperties, 110, true⟩,
    ⟨.vkCreateInstance, 132, true⟩,
    ⟨.vkEnumeratePhysicalDevices, 138, true⟩,
    ⟨.vkEnumeratePhysicalDevices, 141, true⟩,
    ⟨.vkGetPhysicalDeviceProperties, 148, false⟩,
    ⟨.vkGetPhysicalDeviceMemoryProperties, 169, false⟩,
    ⟨.vkGetPhysicalDeviceQueueFamilyProperties, 175, false⟩,
    ⟨.vkGetPhysicalDeviceQueueFamilyProperties, 178, false⟩,
    ⟨.vkEnumerateDeviceExtensionProperties, 197, true⟩,
    ⟨.vkEnumerateDeviceExtensionProperties, 203, true⟩,
    ⟨.vkCreateDevice, 224, true⟩,
    ⟨.vkGetDeviceQueue, 225, false⟩,
    ⟨.vkCreateAndroidSurfaceKHR, 235, true⟩,
    ⟨.vkGetPhysicalDeviceSurfaceSupportKHR, 238, true⟩,
    ⟨.vkGetPhysicalDeviceSurfaceCapabilitiesKHR, 248, true⟩,
    ⟨.vkGetPhysicalDeviceSurfaceFormatsKHR, 267, true⟩,
    ⟨.vkGetPhysicalDeviceSurfaceFormatsKHR, 273, true⟩,
    ⟨.vkGetPhysicalDeviceSurfacePresentModesKHR, 288, true⟩,
    ⟨.vkGetPhysicalDeviceSurfacePresentModesKHR, 294, true⟩,
    ⟨.vkCreateSwapchainKHR, 323, true⟩,
    ⟨.vkGetSwapchainImagesKHR, 326, true⟩,
    ⟨.vkGetSwapchainImagesKHR, 329, true⟩,
    ⟨.vkCreateImageView, 359, true⟩,
    ⟨.vkCreateCommandPool, 375, true⟩,
    ⟨.vkAllocateCommandBuffers, 388, true⟩,
    ⟨.vkCreateFence, 400, true⟩,
    ⟨.vkCreateFence, 412, true⟩,
    ⟨.vkCreateSemaphore, 424, true⟩,
    ⟨.vkCreateRenderPass, 458, true⟩,
    ⟨.vkCreateFramebuffer, 475, true⟩,
    ⟨.vkCompileShader, 510, true⟩,
    ⟨.vkCreateShaderModule, 520, true⟩,
    ⟨.vkCompileShader, 546, true⟩,
    ⟨.vkCreateShaderModule, 556, true⟩,
    ⟨.vkCreateDescriptorSetLayout, 585, true⟩,
    ⟨.vkCreatePipelineLayout, 599, true⟩,
    ⟨.vkCreateGraphicsPipelines, 736, true⟩,
    ⟨.vkCreateBuffer, 775, true⟩,
    ⟨.vkGetBufferMemoryRequirements, 781, false⟩,
    ⟨.vkGetMemoryTypeIndex, 787, true⟩,
    ⟨.vkAllocateMemory, 803, true⟩,
    ⟨.vkBindBufferMemory, 808, true⟩,
    ⟨.vkMapMemory, 814, true⟩,
    ⟨.vkUnmapMemory, 816, false⟩,
    ⟨.vkCreateBuffer, 827, true⟩,
    ⟨.vkGetBufferMemoryRequirements, 833, false⟩,
    ⟨.vkGetMemoryTypeIndex, 839, true⟩,
    ⟨.vkAllocateMemory, 853, true⟩,
    ⟨.vkBindBufferMemory, 858, true⟩,
    ⟨.vkBeginCommandBuffer, 869, true⟩,
    ⟨.vkCmdCopyBuffer, 878, false⟩,
    ⟨.vkCreateBuffer, 897, true⟩,
    ⟨.vkGetBufferMemoryRequirements, 903, false⟩,
    ⟨.vkGetMemoryTypeIndex, 909, true⟩,
    ⟨.vkAllocateMemory, 924, true⟩,
    ⟨.vkBindBufferMemory, 929, true⟩,
    ⟨.vkMapMemory, 934, true⟩,
    ⟨.vkCreateTexture, 947, true⟩,
    ⟨.vkGetTextureProperties, 953, false⟩,
    ⟨.vkCreateImage, 971, true⟩,
    ⟨.vkGetImageMemoryRequirements, 980, false⟩,
    ⟨.vkGetMemoryTypeIndex, 987, true⟩,
    ⟨.vkAllocateMemory, 1002, true⟩,
    ⟨.vkBindImageMemory, 1007, true⟩,
    ⟨.vkGetImageSubresourceLayout, 1019, false⟩,
    ⟨.vkMapMemory, 1028, true⟩,
    ⟨.vkUnmapMemory, 1039, false⟩,
    ⟨.vkCreateImageView, 1064, true⟩,
    ⟨.vkCmdPipelineBarrier, 1087, false⟩,
    ⟨.vkEndCommandBuffer, 1101, true⟩,
    ⟨.vkQueueSubmit, 1112, true⟩,
    ⟨.vkQueueWaitIdle, 1113, true⟩,
    ⟨.vkFreeMemory, 1118, false⟩,
    ⟨.vkDestroyBuffer, 1123, false⟩,
    ⟨.vkCreateSampler, 1136, true⟩,
    ⟨.vkCreateDescriptorPool, 1163, true⟩,
    ⟨.vkAllocateDescriptorSets, 1180, true⟩,
    ⟨.vkUpdateDescriptorSets, 1220, false⟩ ]

/-- Every Vulkan call site of `render` (steady state), in source order. -/
def renderVkCallSites : List VkCallSite :=
  [ ⟨.vkWaitForFences, 1296, true⟩,
    ⟨.vkResetFences, 1297, true⟩,
    ⟨.vkAcquireNextImageKHR, 1315, true⟩,
    ⟨.vkWaitForFences, 1326, true⟩,
    ⟨.vkResetFences, 1327, true⟩,
    ⟨.vkResetCommandBuffer, 1332, false⟩,
    ⟨.vkBeginCommandBuffer, 1342, true⟩,
    ⟨.vkCmdBeginRenderPass, 1358, false⟩,
    ⟨.vkCmdSetViewport, 1369, false⟩,
    ⟨.vkCmdSetScissor, 1378, false⟩,
    ⟨.vkCmdBindPipeline, 1383, false⟩,
    ⟨.vkCmdBindVertexBuffers, 1389, false⟩,
    ⟨.vkCmdBindDescriptorSets, 1394, false⟩,
    ⟨.vkCmdDraw, 1406, false⟩,
    ⟨.vkCmdEndRenderPass, 1411, false⟩,
    ⟨.vkEndCommandBuffer, 1416, true⟩,
    ⟨.vkQueueSubmit, 1429, true⟩,
    ⟨.vkQueuePresentKHR, 1443, true⟩ ]

/-! ## Protocol lemmas for the per-slot fence machine -/

/-- `1` while the CPU is between the start of recording and the submit. -/
def phaseBit (s : SlotState) : Nat := if s.phase = 3 then 1 else 0

theorem slotStep_inv {s s' : SlotState} {e : SlotEv}
    (hinv : slotInv s) (h : slotStep s e = some s') : slotInv s' := by
  cases e <;> simp only [slotStep] at h <;> split at h <;> cases h <;>
    rcases hinv with ⟨h1, h2⟩ | ⟨h1, h2, h3⟩ | ⟨h1, h2, h3⟩ | ⟨h1, h2, h3⟩ <;>
    rcases hs : s.signaled <;>
    simp_all [slotInv]

theorem slotRun_protocol : ∀ (l : List SlotEv) (s s' : SlotState),
    slotInv s → slotRun s l = some s' →
    slotInv s' ∧
      s'.inFlight + l.count .gpuComplete = s.inFlight + l.count .submit ∧
      l.count .record + phaseBit s = l.count .submit + phaseBit s'
  | [], s, s' => by
    intro hinv h
    simp only [slotRun] at h
    injection h with h2
    subst h2
    simp [hinv]
  | e :: rest, s, s' => by
    intro hinv h
    simp only [slotRun] at h
    rcases he : slotStep s e with _ | s2 <;> rw [he] at h
    · cases h
    · have hinv2 : slotInv s2 := slotStep_inv hinv he
      obtain ⟨hi, hcount, hrec⟩ := slotRun_protocol rest s2 s' hinv2 h
      refine ⟨hi, ?_, ?_⟩ <;>
        cases e <;> simp only [slotStep] at he <;> split at he <;> cases he <;>
        simp_all [List.count_cons, phaseBit] <;> omega

theorem initSlotState_inv : slotInv initSlotState := by
  simp [slotInv, initSlotState]

theorem slotRun_split {l₁ l₂ : List SlotEv} {e : SlotEv} {s s' : SlotState}
    (h : slotRun s (l₁ ++ e :: l₂) = some s') :
    ∃ m m2, slotRun s l₁ = some m ∧ slotStep m e = some m2 ∧ slotRun m2 l₂ = some s' := by
  induction l₁ generalizing s with
  | nil =>
    simp only [List.nil_append, slotRun] at h
    rcases he : slotStep s e with _ | m2 <;> rw [he] at h
    · cases h
    · exact ⟨s, m2, rfl, he, h⟩
  | cons a rest ih =>
    simp only [List.cons_append, slotRun] at h
    rcases ha : slotStep s a with _ | s2 <;> rw [ha] at h
    · cases h
    · obtain ⟨m, m2, h1, h2, h3⟩ := ih h
      refine ⟨m, m2, ?_, h2, h3⟩
      simp only [slotRun, ha]
      exact h1

/-! ## The claims -/

/-- **C1.** Every call of `VkRenderer::render` performs, for the active
frame slot, exactly the specified operations in the specified order:
wait on the slot's submit-complete fence and reset it; update the slot's
mapped uniform data; acquire the next image signaling the slot's
acquire-complete fence; wait on that fence and reset it; reset and
re-record the slot's command buffer (begin the render pass on the
acquired image's framebuffer, set dynamic viewport and scissor, bind
pipeline, vertex buffer and descriptor set, draw, end); submit signaling
the slot's semaphore and submit-complete fence; present the acquired
image waiting on that semaphore; and only then advance the frame index.
No step is reordered or skipped. -/
theorem render_call_order (s : RendererState) (imageIndex : Nat) :
    (render s imageIndex).2 = specRenderCallSequence s.frameIndex imageIndex ∧
      (render s imageIndex).1.frameIndex = (s.frameIndex + 1) % s.swapchainImageCount :=
  ⟨rfl, rfl⟩

/-- **C2.** Per render call, the submit-fence protocol events of the
active slot are exactly wait, reset, begin-recording, submit, in that
order (the fence is reset immediately after the wait succeeds); and in
every interleaved CPU/GPU execution of that per-slot protocol, whenever
the CPU begins resetting/re-recording the slot's command buffer, the GPU
has completed (signaled the fence for) every submission made so far on
that slot — so recording of the (k+1)-th submission starts only after
the k-th completed — and at most one submission per slot is ever in
flight. -/
theorem fence_discipline :
    (∀ (s : RendererState) (imageIndex : Nat),
      ((render s imageIndex).2).filterMap (submitFenceEvent s.frameIndex) =
        [.waitSubmitFence, .resetSubmitFence, .record, .submit]) ∧
    (∀ (l₁ l₂ : List SlotEv) (s' : SlotState),
      slotRun initSlotState (l₁ ++ SlotEv.record :: l₂) = some s' →
        l₁.count SlotEv.gpuComplete = l₁.count SlotEv.submit ∧
          l₁.count SlotEv.submit = l₁.count SlotEv.record) ∧
    (∀ (l : List SlotEv) (s' : SlotState),
      slotRun initSlotState l = some s' → s'.inFlight ≤ 1) := by
  refine ⟨fun s imageIndex => by simp [render, submitFenceEvent], ?_, ?_⟩
  · intro l₁ l₂ s' h
    obtain ⟨m, m2, h1, h2, h3⟩ := slotRun_split h
    obtain ⟨hi, hc, hr⟩ := slotRun_protocol l₁ initSlotState m initSlotState_inv h1
    simp only [slotStep] at h2
    split at h2
    · rename_i hphase
      have hfl : m.inFlight = 0 := by
        rcases hi with ⟨h1', h2'⟩ | ⟨h1', h2', h3'⟩ | ⟨h1', h2', h3'⟩ | ⟨h1', h2', h3'⟩ <;>
          omega
      have hpb : phaseBit m = 0 := by simp [phaseBit, hphase]
      have hpb0 : phaseBit initSlotState = 0 := by simp [phaseBit, initSlotState]
      rw [hpb, hpb0] at hr
      simp only [initSlotState] at hc
      constructor <;> omega
    · cases h2
  · intro l s' h
    obtain ⟨hi, -, -⟩ := slotRun_protocol l initSlotState s' initSlotState_inv h
    rcases hi with ⟨-, h2'⟩ | ⟨-, -, h3'⟩ | ⟨-, -, h3'⟩ | ⟨-, -, h3'⟩ <;>
      first
        | (split at h2' <;> omega)
        | omega

/-- Witness for `fence_discipline` at a concrete execution: one full
cycle `wait, reset, record, submit` from the initial slot state. -/
theorem fence_discipline_witness :
    ([SlotEv.waitSubmitFence, SlotEv.resetSubmitFence].count SlotEv.gpuComplete =
        [SlotEv.waitSubmitFence, SlotEv.resetSubmitFence].count SlotEv.submit ∧
      [SlotEv.waitSubmitFence, SlotEv.resetSubmitFence].count SlotEv.submit =
        [SlotEv.waitSubmitFence, SlotEv.resetSubmitFence].count SlotEv.record) ∧
    (SlotState.mk 0 false 1).inFlight ≤ 1 :=
  ⟨fence_discipline.2.1 [.waitSubmitFence, .resetSubmitFence] [.submit]
      ⟨0, false, 1⟩ (by decide),
   fence_discipline.2.2 [.waitSubmitFence, .resetSubmitFence, .record, .submit]
      ⟨0, false, 1⟩ (by decide)⟩

/-- **C3.** For every render call the framebuffer bound in the render
pass is the one indexed by the image index returned by the acquire call
— in both the `hello-graceful-shutdown` and the `vulkan-sampler` loops
— never the one indexed by the frame slot; concretely, the initial state
(frame index `0`) binds framebuffer `1` when the presentation engine
hands back image `1`, the two indices cycling independently. -/
theorem framebuffer_from_acquired_index :
    (∀ (s : RendererState) (imageIndex : Nat),
      framebufferBoundIn (render s imageIndex).2 = some imageIndex) ∧
    (∀ (u : Uniform) (extent : VkExtent2D) (imageIndex : Nat),
      framebufferBoundIn (samplerRender u extent imageIndex).2 = some imageIndex) ∧
    (initState 2 ⟨1, 1⟩).frameIndex = 0 ∧
    framebufferBoundIn (render (initState 2 ⟨1, 1⟩) 1).2 = some 1 :=
  ⟨fun _ _ => rfl, fun _ _ _ => rfl, rfl, rfl⟩

/-- Bridge between the Bool test evaluated by the scan inside
`vkGetMemoryTypeIndex` and the Prop `memoryTypeCompatible`. -/
theorem memoryTypeTest_iff (memoryTypes : List VkMemoryType)
    (memoryRequirements : VkMemoryRequirements) (memoryPropertyFlags i : Nat) :
    ((memoryRequirements.memoryTypeBits &&& (1 <<< i) != 0) &&
        (((memoryTypes.getD i ⟨0⟩).propertyFlags &&& memoryPropertyFlags) ==
          memoryPropertyFlags)) = true ↔
      memoryTypeCompatible memoryTypes memoryRequirements memoryPropertyFlags i := by
  simp [memoryTypeCompatible, Bool.and_eq_true, bne_iff_ne, beq_iff_eq]

/-- **C4.** `vkGetMemoryTypeIndex` succeeds with the lowest index whose
bit is set in the requirements' type bitmask and whose property flags
contain the desired flags, and fails exactly when no index of the
memory-type table satisfies both conditions. -/
theorem memory_type_lookup (memoryTypes : List VkMemoryType)
    (memoryRequirements : VkMemoryRequirements) (memoryPropertyFlags : Nat) :
    (∀ i, vkGetMemoryTypeIndex memoryTypes memoryRequirements memoryPropertyFlags = some i ↔
      (i < memoryTypes.length ∧
        memoryTypeCompatible memoryTypes memoryRequirements memoryPropertyFlags i ∧
        ∀ j, j < i →
          ¬ memoryTypeCompatible memoryTypes memoryRequirements memoryPropertyFlags j)) ∧
    (vkGetMemoryTypeIndex memoryTypes memoryRequirements memoryPropertyFlags = none ↔
      ∀ i, i < memoryTypes.length →
        ¬ memoryTypeCompatible memoryTypes memoryRequirements memoryPropertyFlags i) := by
  constructor
  · intro i
    rw [vkGetMemoryTypeIndex, findFirstIdx_eq_some_iff _ (⟨0⟩ : VkMemoryType)]
    constructor
    · rintro ⟨k, hk, hik, hp, hmin⟩
      rw [Nat.zero_add] at hik
      subst hik
      rw [Nat.zero_add] at hp
      refine ⟨hk, (memoryTypeTest_iff _ _ _ _).mp hp, ?_⟩
      intro j hj hcompat
      have hf := hmin j hj
      rw [Nat.zero_add] at hf
      rw [(memoryTypeTest_iff _ _ _ _).mpr hcompat] at hf
      cases hf
    · rintro ⟨hk, hcompat, hmin⟩
      refine ⟨i, hk, by omega, ?_, ?_⟩
      · rw [Nat.zero_add]
        exact (memoryTypeTest_iff _ _ _ _).mpr hcompat
      · intro m hm
        rw [Nat.zero_add]
        by_contra hf
        rw [Bool.not_eq_false] at hf
        exact hmin m hm ((memoryTypeTest_iff _ _ _ _).mp hf)
  · rw [vkGetMemoryTypeIndex, findFirstIdx_eq_none_iff _ (⟨0⟩ : VkMemoryType)]
    constructor
    · intro hall i hi hcompat
      have hf := hall i hi
      rw [Nat.zero_add] at hf
      rw [(memoryTypeTest_iff _ _ _ _).mpr hcompat] at hf
      cases hf
    · intro hnone k hk
      rw [Nat.zero_add]
      by_contra hf
      rw [Bool.not_eq_false] at hf
      exact hnone k hk ((memoryTypeTest_iff _ _ _ _).mp hf)

/-- Witness for `memory_type_lookup`: a two-entry table where index 0
has the type bit set but lacks the desired flag, so the scan returns
index 1. -/
theorem memory_type_lookup_witness :
    vkGetMemoryTypeIndex [⟨2⟩, ⟨3⟩] ⟨16, 4, 3⟩ 1 = some 1 := by
  refine ((memory_type_lookup [⟨2⟩, ⟨3⟩] ⟨16, 4, 3⟩ 1).1 1).mpr ⟨by decide, by decide, ?_⟩
  intro j hj
  have hj0 : j = 0 := by omega
  subst hj0
  decide

/-- **C5.** Under the update rule `x += 0.01; if (x > 1.5) x = -1.5;`,
starting from a stored value of `1.49`, the incremented values of the
first ten updates are `1.50, 1.51, -1.49, …, -1.42`; the stored values
are `1.50, -1.50, -1.49, …, -1.42`; update 1 produces `1.50`, which does
not exceed `1.5`, so no reset fires, and update 2 produces `1.51` — the
first value exceeding `1.5` — which triggers the first reset to `-1.5`. -/
theorem uniform_wrap_sequence :
    (List.range 10).map (fun n => uniformPosIter (149/100) n + 1/100) =
      [3/2, 151/100, -(149/100), -(148/100), -(147/100), -(146/100), -(145/100),
        -(144/100), -(143/100), -(142/100)] ∧
    (List.range 10).map (fun n => uniformPosIter (149/100) (n + 1)) =
      [3/2, -(3/2), -(149/100), -(148/100), -(147/100), -(146/100), -(145/100),
        -(144/100), -(143/100), -(142/100)] ∧
    uniformPosIter (149/100) 0 + 1/100 ≤ 3/2 ∧
    uniformPosIter (149/100) 1 + 1/100 > 3/2 ∧
    uniformPosIter (149/100) 2 = -(3/2) := by
  refine ⟨?_, ?_, ?_, ?_, ?_⟩ <;>
    norm_num [uniformPosIter, uniformPositionStep, List.range_succ]

/-- **C6.** The frame index starts at `0`, is advanced to exactly
`(frameIndex + 1) % N` as the final step of each render call (every
driver call of the trace uses the pre-advance slot), stays in `0..N-1`
whenever it was in range before, and with `N = 2` five consecutive
render calls use slot indices `0, 1, 0, 1, 0` regardless of which image
indices the presentation engine hands back. -/
theorem frame_index_cycle :
    (∀ (n : Nat) (extent : VkExtent2D), (initState n extent).frameIndex = 0) ∧
    (∀ (s : RendererState) (imageIndex : Nat),
      (render s imageIndex).2 = specRenderCallSequence s.frameIndex imageIndex ∧
        (render s imageIndex).1.frameIndex = (s.frameIndex + 1) % s.swapchainImageCount ∧
        (render s imageIndex).1.swapchainImageCount = s.swapchainImageCount) ∧
    (∀ (s : RendererState) (imageIndex : Nat),
      s.frameIndex < s.swapchainImageCount →
        (render s imageIndex).1.frameIndex < s.swapchainImageCount) ∧
    slotsOf (initState 2 ⟨2, 1⟩) [1, 0, 0, 1, 1] = [0, 1, 0, 1, 0] := by
  refine ⟨fun n extent => rfl, fun s imageIndex => ⟨rfl, rfl, rfl⟩, ?_, by decide⟩
  intro s imageIndex h
  have hn : 0 < s.swapchainImageCount := Nat.lt_of_le_of_lt (Nat.zero_le _) h
  show (s.frameIndex + 1) % s.swapchainImageCount < s.swapchainImageCount
  exact Nat.mod_lt _ hn

/-- Witness for `frame_index_cycle` on the initial two-image state. -/
theorem frame_index_cycle_witness :
    (initState 2 ⟨2, 1⟩).frameIndex < (initState 2 ⟨2, 1⟩).swapchainImageCount ∧
      (render (initState 2 ⟨2, 1⟩) 1).1.frameIndex <
        (initState 2 ⟨2, 1⟩).swapchainImageCount :=
  ⟨by decide, frame_index_cycle.2.2.1 (initState 2 ⟨2, 1⟩) 1 (by decide)⟩

/-- **C7 counterexample.** Not every fallible Vulkan call is checked:
`vkResetCommandBuffer` returns a `VkResult`, but its call site at line
1332 of `render` (steady state) is not wrapped in `VK_CHECK_ERROR`; its
result is silently discarded, refuting the claim as stated. -/
theorem unchecked_reset_command_buffer :
    VkCallSite.mk .vkResetCommandBuffer 1332 false ∈ renderVkCallSites ∧
      VkFn.returnsResult .vkResetCommandBuffer = true ∧
      ¬ ∀ c ∈ constructorVkCallSites ++ renderVkCallSites,
          c.fn.returnsResult = true → c.checked = true := by
  refine ⟨by decide, rfl, ?_⟩
  intro hall
  have hfalse := hall ⟨.vkResetCommandBuffer, 1332, false⟩ (by decide) rfl
  cases hfalse

/-- **C7 amended.** Every fallible Vulkan call of the constructor
(setup) and of `render` (steady state) except `vkResetCommandBuffer` is
wrapped in `VK_CHECK_ERROR` at its call site, which on any result other
than `VK_SUCCESS` logs a diagnostic and aborts the process immediately
(no error value is propagated); `vkResetCommandBuffer` is the one
fallible call whose result is ignored. -/
theorem fallible_calls_checked :
    (∀ c ∈ constructorVkCallSites ++ renderVkCallSites,
      c.fn.returnsResult = true → c.fn ≠ .vkResetCommandBuffer → c.checked = true) ∧
    (∀ vkResult : Int, vkCheckError vkResult = none ↔ vkResult ≠ 0) := by
  constructor
  · decide
  · intro vkResult
    by_cases hr : vkResult = 0 <;> simp [vkCheckError, hr]

/-- Witness for `fallible_calls_checked`: the fence wait of `render`
is checked, and a failing result (`VK_NOT_READY = 1`) aborts. -/
theorem fallible_calls_checked_witness :
    (VkCallSite.mk .vkWaitForFences 1296 true).checked = true ∧ vkCheckError 1 = none :=
  ⟨fallible_calls_checked.1 ⟨.vkWaitForFences, 1296, true⟩ (by decide) rfl (by decide),
   (fallible_calls_checked.2 1).mpr (by decide)⟩

/-- **C8.** Swapchain negotiation takes the first enumerated surface
format equal to `VK_FORMAT_R8G8B8A8_UNORM` — the non-sRGB 8-bit RGBA
format — and the first enumerated present mode equal to
`VK_PRESENT_MODE_FIFO_KHR`; each scan reports failure (the fatal
`assert` fires) exactly when no such entry exists, and no other
candidate is ever chosen. -/
theorem surface_format_and_present_mode (surfaceFormats : List VkSurfaceFormatKHR)
    (presentModes : List Nat) :
    (∀ i, chooseSurfaceFormatIndex surfaceFormats = some i ↔
      (i < surfaceFormats.length ∧
        (surfaceFormats.getD i ⟨0, 0⟩).format = VK_FORMAT_R8G8B8A8_UNORM ∧
        ∀ j, j < i →
          (surfaceFormats.getD j ⟨0, 0⟩).format ≠ VK_FORMAT_R8G8B8A8_UNORM)) ∧
    (chooseSurfaceFormatIndex surfaceFormats = none ↔
      ∀ i, i < surfaceFormats.length →
        (surfaceFormats.getD i ⟨0, 0⟩).format ≠ VK_FORMAT_R8G8B8A8_UNORM) ∧
    (∀ i, choosePresentModeIndex presentModes = some i ↔
      (i < presentModes.length ∧ presentModes.getD i 0 = VK_PRESENT_MODE_FIFO_KHR ∧
        ∀ j, j < i → presentModes.getD j 0 ≠ VK_PRESENT_MODE_FIFO_KHR)) ∧
    (choosePresentModeIndex presentModes = none ↔
      ∀ i, i < presentModes.length → presentModes.getD i 0 ≠ VK_PRESENT_MODE_FIFO_KHR) := by
  refine ⟨?_, ?_, ?_, ?_⟩
  · intro i
    rw [chooseSurfaceFormatIndex, findFirstIdx_eq_some_iff _ (⟨0, 0⟩ : VkSurfaceFormatKHR)]
    constructor
    · rintro ⟨k, hk, hik, hp, hmin⟩
      rw [Nat.zero_add] at hik
      subst hik
      refine ⟨hk, beq_iff_eq.mp hp, ?_⟩
      intro j hj heq
      have hf := hmin j hj
      rw [beq_iff_eq.mpr heq] at hf
      cases hf
    · rintro ⟨hk, heq, hmin⟩
      refine ⟨i, hk, by omega, beq_iff_eq.mpr heq, ?_⟩
      intro m hm
      by_contra hf
      rw [Bool.not_eq_false] at hf
      exact hmin m hm (beq_iff_eq.mp hf)
  · rw [chooseSurfaceFormatIndex, findFirstIdx_eq_none_iff _ (⟨0, 0⟩ : VkSurfaceFormatKHR)]
    constructor
    · intro hall i hi heq
      have hf := hall i hi
      rw [beq_iff_eq.mpr heq] at hf
      cases hf
    · intro hnone k hk
      by_contra hf
      rw [Bool.not_eq_false] at hf
      exact hnone k hk (beq_iff_eq.mp hf)
  · intro i
    rw [choosePresentModeIndex, findFirstIdx_eq_some_iff _ (0 : Nat)]
    constructor
    · rintro ⟨k, hk, hik, hp, hmin⟩
      rw [Nat.zero_add] at hik
      subst hik
      refine ⟨hk, beq_iff_eq.mp hp, ?_⟩
      intro j hj heq
      have hf := hmin j hj
      rw [beq_iff_eq.mpr heq] at hf
      cases hf
    · rintro ⟨hk, heq, hmin⟩
      refine ⟨i, hk, by omega, beq_iff_eq.mpr heq, ?_⟩
      intro m hm
      by_contra hf
      rw [Bool.not_eq_false] at hf
      exact hmin m hm (beq_iff_eq.mp hf)
  · rw [choosePresentModeIndex, findFirstIdx_eq_none_iff _ (0 : Nat)]
    constructor
    · intro hall i hi heq
      have hf := hall i hi
      rw [beq_iff_eq.mpr heq] at hf
      cases hf
    · intro hnone k hk
      by_contra hf
      rw [Bool.not_eq_false] at hf
      exact hnone k hk (beq_iff_eq.mp hf)

/-- Witness for `surface_format_and_present_mode`: the sRGB entry
(`VK_FORMAT_R8G8B8A8_SRGB = 43`) at index 0 is skipped and the UNORM
entry at index 1 chosen; likewise IMMEDIATE (`0`) is skipped for FIFO. -/
theorem surface_format_witness :
    chooseSurfaceFormatIndex [⟨43, 0⟩, ⟨37, 0⟩] = some 1 ∧
      choosePresentModeIndex [0, 2] = some 1 := by
  constructor
  · refine ((surface_format_and_present_mode [⟨43, 0⟩, ⟨37, 0⟩] [0, 2]).1 1).mpr
      ⟨by decide, by decide, ?_⟩
    intro j hj
    have hj0 : j = 0 := by omega
    subst hj0
    decide
  · refine ((surface_format_and_present_mode [⟨43, 0⟩, ⟨37, 0⟩] [0, 2]).2.2.1 1).mpr
      ⟨by decide, by decide, ?_⟩
    intro j hj
    have hj0 : j = 0 := by omega
    subst hj0
    decide

/-- **C9.** For every swapchain size, the destructor's first action is
`vkDeviceWaitIdle` — blocking until all previously submitted GPU work
has completed — and everything after it is a destroy/free/unmap of a
resource; so no fence, semaphore, command buffer, buffer, image or
memory allocation is released while GPU work that may use it is still
pending. -/
theorem teardown_waits_for_idle (n : Nat) :
    (destructorTrace n).head? = some TeardownEv.deviceWaitIdle ∧
      (destructorTrace n).tail.all releasesResource = true := by
  refine ⟨rfl, ?_⟩
  simp [destructorTrace, List.all_append, List.all_map, releasesResource,
    Function.comp, List.all_eq_true]

/-! ## Helper lemmas for the uniform write footprint -/

theorem render_uniformData (s : RendererState) (imageIndex : Nat) :
    (render s imageIndex).1.uniformData =
      s.uniformData.set s.frameIndex
        (updateUniform (s.uniformData.getD s.frameIndex zeroUniform)
          s.swapchainImageExtent) := rfl

theorem render_uniformData_other (s : RendererState) (imageIndex k : Nat)
    (hk : k ≠ s.frameIndex) :
    ((render s imageIndex).1.uniformData).getD k zeroUniform =
      s.uniformData.getD k zeroUniform := by
  rw [render_uniformData]
  simp [List.getD_eq_getElem?_getD, List.getElem?_set_ne (Ne.symm hk)]

theorem updateUniform_position_other (u : Uniform) (extent : VkExtent2D)
    (j : Fin 8) (h0 : j ≠ 0) (h4 : j ≠ 4) :
    (updateUniform u extent).position j = u.position j := by
  simp [updateUniform, h0, h4]

/-- All position elements other than 0 and 4, in every slot's mapped
uniform block, are zero. -/
def offFootprintZero (s : RendererState) : Prop :=
  ∀ (k : Nat) (j : Fin 8), j ≠ 0 → j ≠ 4 →
    (s.uniformData.getD k zeroUniform).position j = 0

theorem offFootprintZero_initState (n : Nat) (extent : VkExtent2D) :
    offFootprintZero (initState n extent) := by
  intro k j h0 h4
  show ((List.replicate n zeroUniform).getD k zeroUniform).position j = 0
  rw [List.getD_eq_getElem?_getD, List.getElem?_getD_replicate_default_eq]
  rfl

theorem offFootprintZero_render {s : RendererState} (h : offFootprintZero s)
    (imageIndex : Nat) : offFootprintZero (render s imageIndex).1 := by
  intro k j h0 h4
  by_cases hk : k = s.frameIndex
  · rw [render_uniformData, hk]
    by_cases hlen : s.frameIndex < s.uniformData.length
    · rw [List.getD_eq_getElem?_getD, List.getElem?_set_self hlen]
      simp only [Option.getD_some]
      rw [updateUniform_position_other _ _ j h0 h4]
      exact h s.frameIndex j h0 h4
    · rw [List.set_eq_of_length_le (Nat.le_of_not_lt hlen)]
      exact h s.frameIndex j h0 h4
  · rw [render_uniformData_other s imageIndex k hk]
    exact h k j h0 h4

theorem offFootprintZero_renderSeq {s : RendererState} (h : offFootprintZero s) :
    ∀ imgs : List Nat, offFootprintZero (renderSeq s imgs)
  | [] => h
  | img :: imgs => offFootprintZero_renderSeq (offFootprintZero_render h img) imgs

/-- **C10.** Each render call writes only elements 0 and 4 of the
active slot's mapped position array (plus its ratio field): all other
position elements survive `updateUniform` unchanged, the blocks of the
other slots are untouched, and — since setup zero-initializes every
block — the six untracked elements of every slot remain zero after any
sequence of render calls. -/
theorem uniform_write_footprint :
    (∀ (u : Uniform) (extent : VkExtent2D) (j : Fin 8), j ≠ 0 → j ≠ 4 →
      (updateUniform u extent).position j = u.position j) ∧
    (∀ (s : RendererState) (imageIndex k : Nat), k ≠ s.frameIndex →
      ((render s imageIndex).1.uniformData).getD k zeroUniform =
        s.uniformData.getD k zeroUniform) ∧
    (∀ (n : Nat) (extent : VkExtent2D) (imgs : List Nat) (k : Nat) (j : Fin 8),
      j ≠ 0 → j ≠ 4 →
      ((renderSeq (initState n extent) imgs).uniformData.getD k zeroUniform).position j
        = 0) :=
  ⟨updateUniform_position_other,
   render_uniformData_other,
   fun n extent imgs k j h0 h4 =>
     offFootprintZero_renderSeq (offFootprintZero_initState n extent) imgs k j h0 h4⟩

/-- Witness for `uniform_write_footprint` at concrete inputs: a zero
block keeps element 2 unchanged; slot 1 is untouched by a render on
slot 0; element 1 of slot 0 is still zero after three renders. -/
theorem uniform_write_footprint_witness :
    (updateUniform zeroUniform ⟨1, 1⟩).position 2 = zeroUniform.position 2 ∧
      ((render (initState 2 ⟨1, 1⟩) 0).1.uniformData).getD 1 zeroUniform =
        (initState 2 ⟨1, 1⟩).uniformData.getD 1 zeroUniform ∧
      ((renderSeq (initState 2 ⟨2, 1⟩) [0, 1, 0]).uniformData.getD 0
          zeroUniform).position 1 = 0 :=
  ⟨uniform_write_footprint.1 zeroUniform ⟨1, 1⟩ 2 (by decide) (by decide),
   uniform_write_footprint.2.1 (initState 2 ⟨1, 1⟩) 0 1 (by decide),
   uniform_write_footprint.2.2 2 ⟨2, 1⟩ [0, 1, 0] 0 1 (by decide) (by decide)⟩

end PracticeVulkan
